import Mathlib

/-!
Verification of the evolutionary core of a Bayesian multi-objective symbolic
regression package.  The Lean definitions below shallow-embed the Python
sources:

* `symbolic_regression/SymbolicRegressor.py` — population registry
  (`drop_duplicates`, `drop_invalids`), survivor selection (the two stable
  sorts plus truncation in `_fit`), the generation loop, and the
  `KeyboardInterrupt` handling of `fit`;
* `symbolic_regression/multiobjective/optimization.py` — the constant
  optimizers `SGD`, `ADAM` and `ADAM2FOLD`;
* `symbolic_regression/multiobjective/fitness/Regression.py` — the fitness
  metrics `WeightedMeanSquaredError`, `WeightedMeanAbsoluteError`,
  `WeightedRelativeRootMeanSquaredError`, `NotConstant` and `ValueRange`.

Floating point arithmetic is modelled by exact real (`ℝ`) or rational (`ℚ`)
arithmetic; `np.nanmean` coincides with the plain mean because the real
number model has no NaN values (the NaN-recovery branch of the optimizers is
kept in the embedding but is provably dead there).  Python exceptions are
modelled with `Except PyError`.  The `Program` class and the
`multiobjective/training.py` helpers are not part of the given sources; the
few facts needed about them are modelled from the spec and are marked as
such in their doc comments.
-/

set_option linter.unusedVariables false

/-- Python exception kinds that the embedded code can raise. -/
inductive PyError
  | typeError
  | valueError
  | attributeError
  | zeroDivisionError
  | unboundLocalError
  | indexError
deriving DecidableEq, Repr

/-! ## Population data model (SymbolicRegressor.py)

A `Prog` carries exactly the derived fields of a `Program` that the
controller reads or writes: the fitness vector (objective values, in a fixed
order), the underlying mathematical validity, the `_is_duplicated` mark, the
`rank` and `crowding_distance` fields set by the ranking passes, the
complexity and the convergence flag. -/

structure Prog where
  fitness : List ℚ
  validMath : Bool
  is_duplicated : Bool
  rank : ℕ
  crowding_distance : ℚ
  complexity : ℚ
  converged : Bool
deriving DecidableEq, Repr

/-- Modelled from the spec: `Program.is_valid` (Program.py is not under
`src/`).  The comment at SymbolicRegressor.py line 81
(`Makes p.is_valid = False`) records that marking a program duplicated also
makes it invalid, so validity is the conjunction of the underlying
mathematical validity and non-duplication. -/
def Prog.is_valid (p : Prog) : Bool := p.validMath && !p.is_duplicated

/-- Modelled from the spec: `Program.is_duplicate` (Program.py is not under
`src/`).  Spec §4.5 and the data model: two programs are duplicates when
their fitness vectors are identical. -/
def Prog.is_duplicate (p q : Prog) : Bool := p.fitness = q.fitness

/-- Marking performed by one iteration of the outer loop of
`drop_duplicates` (SymbolicRegressor.py lines 79–81): every later program
that duplicates `p` gets its `_is_duplicated` flag set. -/
def markAgainst (p : Prog) (rest : List Prog) : List Prog :=
  rest.map (fun q => if p.is_duplicate q then { q with is_duplicated := true } else q)

/-- The marking loop of `drop_duplicates` (SymbolicRegressor.py lines
77–81): programs are scanned in population order; a valid, not-yet-marked
program marks every later duplicate of itself.  The recursive call receives
the tail with the marks made by the head already applied, exactly as the
in-place mutation does. -/
def markLoop : ℕ → List Prog → List Prog
  | _, [] => []
  | 0, l => l
  | fuel + 1, p :: rest =>
    if p.is_valid && !p.is_duplicated then
      p :: markLoop fuel (markAgainst p rest)
    else
      p :: markLoop fuel rest

/-- The marking loop at its real fuel: the scan visits each position once,
so `l.length` steps always suffice (`markAgainst` preserves length). -/
def markDuplicates (l : List Prog) : List Prog := markLoop l.length l

/-- The `inplace=True` behaviour of `SymbolicRegressor.drop_duplicates`
(SymbolicRegressor.py lines 68–89): run the marking loop, then keep the
programs whose `_is_duplicated` flag is `False`. -/
def drop_duplicates (pop : List Prog) : List Prog :=
  (markDuplicates pop).filter (fun p => p.is_duplicated == false)

/-- The `inplace=True` behaviour of `SymbolicRegressor.drop_invalids`
(SymbolicRegressor.py lines 91–105): keep the programs with
`is_valid == True`. -/
def drop_invalids (pop : List Prog) : List Prog :=
  pop.filter (fun p => p.is_valid == true)

/-! Helper lemmas about the marking loop. -/

theorem markAgainst_length (p : Prog) (l : List Prog) :
    (markAgainst p l).length = l.length := by
  simp [markAgainst]

/-- Marking never clears an `_is_duplicated` flag and never changes a
fitness vector: every element of `markAgainst p l` is either the original
element or the original element with the flag raised. -/
theorem mem_markAgainst {p : Prog} {l : List Prog} {q : Prog}
    (hq : q ∈ markAgainst p l) :
    ∃ q₀ ∈ l, q = q₀ ∨ q = { q₀ with is_duplicated := true } := by
  simp only [markAgainst, List.mem_map] at hq
  obtain ⟨q₀, hq₀, hEq⟩ := hq
  refine ⟨q₀, hq₀, ?_⟩
  by_cases h : p.is_duplicate q₀
  · right; simp [h] at hEq; exact hEq.symm
  · left; simp [h] at hEq; exact hEq.symm

/-- A fitness-stable predicate satisfied by all of `l` (one that cannot be
destroyed by raising the duplicate flag) is satisfied by all of
`markAgainst p l`. -/
theorem markAgainst_preserves {P : Prog → Prop} {p : Prog} {l : List Prog}
    (hP : ∀ q : Prog, P q → P { q with is_duplicated := true })
    (hl : ∀ q ∈ l, P q) :
    ∀ q ∈ markAgainst p l, P q := by
  intro q hq
  obtain ⟨q₀, hq₀, hcase⟩ := mem_markAgainst hq
  rcases hcase with rfl | rfl
  · exact hl _ hq₀
  · exact hP _ (hl _ hq₀)

/-- In `markAgainst p l`, every program whose fitness equals `p.fitness` is
marked. -/
theorem markAgainst_marks {p : Prog} {l : List Prog} :
    ∀ q ∈ markAgainst p l, q.fitness = p.fitness → q.is_duplicated = true := by
  intro q hq hfit
  simp only [markAgainst, List.mem_map] at hq
  obtain ⟨q₀, hq₀, hEq⟩ := hq
  by_cases h : p.is_duplicate q₀
  · simp [h] at hEq; simp [← hEq]
  · simp [h] at hEq
    subst hEq
    simp [Prog.is_duplicate, hfit] at h

/-- The marking loop preserves the property "every program with fitness `f`
is marked" (marks are only ever raised, and fitness vectors are never
touched). -/
theorem markLoop_preserves_marked (f : List ℚ) :
    ∀ (fuel : ℕ) (l : List Prog),
      (∀ q ∈ l, q.fitness = f → q.is_duplicated = true) →
      ∀ q ∈ markLoop fuel l, q.fitness = f → q.is_duplicated = true := by
  intro fuel
  induction fuel with
  | zero =>
    intro l hl q hq
    cases l with
    | nil => simp [markLoop] at hq
    | cons p rest => exact hl q (by simpa [markLoop] using hq)
  | succ fuel ih =>
    intro l hl q hq
    cases l with
    | nil => simp [markLoop] at hq
    | cons p rest =>
      rw [markLoop] at hq
      by_cases hguard : (p.is_valid && !p.is_duplicated) = true
      · rw [if_pos hguard] at hq
        rcases List.mem_cons.mp hq with rfl | hq'
        · exact hl q (List.mem_cons_self _ _)
        · refine ih _ ?_ q hq'
          refine markAgainst_preserves ?_ ?_
          · intro q₀ h hf; rfl
          · intro q₀ h₀ hf₀; exact hl q₀ (List.mem_cons_of_mem _ h₀) hf₀
      · rw [if_neg hguard] at hq
        rcases List.mem_cons.mp hq with rfl | hq'
        · exact hl q (List.mem_cons_self _ _)
        · exact ih _ (fun q₀ h₀ => hl q₀ (List.mem_cons_of_mem _ h₀)) q hq'

/-- Retention-order invariant of `drop_duplicates`: in the retained
population, a valid program is never followed by a program with the same
fitness vector (had there been one, the marking loop would have marked it
and the filter would have removed it). -/
theorem markLoop_filter_pairwise :
    ∀ (fuel : ℕ) (l : List Prog), l.length ≤ fuel →
      ((markLoop fuel l).filter (fun p => p.is_duplicated == false)).Pairwise
        (fun a b => a.is_valid = true → a.fitness ≠ b.fitness) := by
  intro fuel
  induction fuel with
  | zero =>
    intro l hlen
    have : l = [] := List.eq_nil_of_length_eq_zero (Nat.le_zero.mp hlen)
    subst this
    simp [markLoop]
  | succ fuel ih =>
    intro l hlen
    cases l with
    | nil => simp [markLoop]
    | cons p rest =>
      have hrest : rest.length ≤ fuel := by
        simpa using Nat.succ_le_succ_iff.mp hlen
      rw [markLoop]
      by_cases hguard : (p.is_valid && !p.is_duplicated) = true
      · rw [if_pos hguard]
        have hp : p.is_duplicated = false := by
          have := (Bool.and_eq_true _ _).mp hguard
          simpa using this.2
        rw [List.filter_cons_of_pos (by simp [hp])]
        have ih' := ih (markAgainst p rest) (by rw [markAgainst_length]; exact hrest)
        refine List.Pairwise.cons ?_ ih'
        intro q hq hvalid
        have hq' := List.of_mem_filter hq
        have hqmem := List.mem_of_mem_filter hq
        have hmarked := markLoop_preserves_marked p.fitness fuel
          (markAgainst p rest) (markAgainst_marks) q hqmem
        intro hfit
        have : q.is_duplicated = true := hmarked hfit.symm
        simp [this] at hq'
      · rw [if_neg hguard]
        by_cases hp : p.is_duplicated = true
        · rw [List.filter_cons_of_neg (by simp [hp])]
          exact ih rest hrest
        · have hp' : p.is_duplicated = false := by simpa using hp
          rw [List.filter_cons_of_pos (by simp [hp'])]
          refine List.Pairwise.cons ?_ (ih rest hrest)
          intro q hq hvalid
          exfalso
          have : ¬ (p.is_valid && !p.is_duplicated) = true := hguard
          simp [Prog.is_valid, hp'] at this
          simp [Prog.is_valid, hp', this] at hvalid

/-- Retention-order invariant of `drop_duplicates` stated at the public
entry point. -/
theorem drop_duplicates_pairwise (pop : List Prog) :
    (drop_duplicates pop).Pairwise
      (fun a b => a.is_valid = true → a.fitness ≠ b.fitness) :=
  markLoop_filter_pairwise pop.length pop le_rfl

/-- Every program retained by `drop_duplicates` has its `_is_duplicated`
flag clear: the filter keeps exactly the unmarked programs. -/
theorem drop_duplicates_unmarked (pop : List Prog) :
    ∀ p ∈ drop_duplicates pop, p.is_duplicated = false := by
  intro p hp
  have := List.of_mem_filter hp
  simpa using this

/-- If no program of `l` is marked and no valid program of `l` is followed
by a program with the same fitness, the marking loop changes nothing. -/
theorem markLoop_eq_self :
    ∀ (fuel : ℕ) (l : List Prog),
      (∀ p ∈ l, p.is_duplicated = false) →
      l.Pairwise (fun a b => a.is_valid = true → a.fitness ≠ b.fitness) →
      markLoop fuel l = l := by
  intro fuel
  induction fuel with
  | zero =>
    intro l _ _
    cases l with
    | nil => simp [markLoop]
    | cons p rest => simp [markLoop]
  | succ fuel ih =>
    intro l hunmarked hpw
    cases l with
    | nil => simp [markLoop]
    | cons p rest =>
      have hp : p.is_duplicated = false := hunmarked p (List.mem_cons_self _ _)
      have hrest : ∀ q ∈ rest, q.is_duplicated = false :=
        fun q hq => hunmarked q (List.mem_cons_of_mem _ hq)
      have hpw' := List.pairwise_cons.mp hpw
      by_cases hval : p.is_valid = true
      · have hguard : (p.is_valid && !p.is_duplicated) = true := by simp [hval, hp]
        rw [markLoop, if_pos hguard]
        have hmark : markAgainst p rest = rest := by
          unfold markAgainst
          have hcg : rest.map (fun q => if p.is_duplicate q then { q with is_duplicated := true } else q)
              = rest.map id := by
            apply List.map_congr_left
            intro q hq
            have : p.fitness ≠ q.fitness := hpw'.1 q hq hval
            simp [Prog.is_duplicate, this]
          rw [hcg, List.map_id]
        rw [hmark, ih rest hrest hpw'.2]
      · rw [markLoop, if_neg (by simp [Bool.and_eq_true]; intro h; exact absurd h hval)]
        rw [ih rest hrest hpw'.2]

/-- If no program of `l` is marked and no valid program of `l` is followed
by a program with the same fitness, the marking loop changes nothing. -/
theorem markDuplicates_eq_self (l : List Prog)
    (hunmarked : ∀ p ∈ l, p.is_duplicated = false)
    (hpw : l.Pairwise (fun a b => a.is_valid = true → a.fitness ≠ b.fitness)) :
    markDuplicates l = l :=
  markLoop_eq_self l.length l hunmarked hpw

/-- `drop_duplicates` output is a fixed point of `drop_duplicates`. -/
theorem drop_duplicates_fixed (l : List Prog)
    (hunmarked : ∀ p ∈ l, p.is_duplicated = false)
    (hpw : l.Pairwise (fun a b => a.is_valid = true → a.fitness ≠ b.fitness)) :
    drop_duplicates l = l := by
  unfold drop_duplicates
  rw [markDuplicates_eq_self l hunmarked hpw]
  apply List.filter_eq_self.mpr
  intro p hp
  simp [hunmarked p hp]

/-! ## Survivor selection (SymbolicRegressor.py lines 273–276) -/

/-- Sort key of the first `list.sort` call (line 273): crowding distance,
descending (`reverse=True`). -/
def crowdingGe (a b : Prog) : Prop := b.crowding_distance ≤ a.crowding_distance

/-- Sort key of the second `list.sort` call (line 275): rank, ascending. -/
def rankLe (a b : Prog) : Prop := a.rank ≤ b.rank

instance : DecidableRel crowdingGe := fun a b => inferInstanceAs (Decidable (_ ≤ _))

instance : DecidableRel rankLe := fun a b => inferInstanceAs (Decidable (_ ≤ _))

instance : IsTotal Prog crowdingGe :=
  ⟨fun a b => le_total b.crowding_distance a.crowding_distance⟩

instance : IsTrans Prog crowdingGe := ⟨fun _ _ _ h1 h2 => le_trans h2 h1⟩

instance : IsTotal Prog rankLe := ⟨fun a b => le_total a.rank b.rank⟩

instance : IsTrans Prog rankLe := ⟨fun _ _ _ h1 h2 => le_trans h1 h2⟩

/-- Survivor selection of `_fit` (SymbolicRegressor.py lines 273–276):
stable-sort by crowding distance descending, stable-sort by rank ascending,
keep the first `N`.  Python's `list.sort` is a stable sort; it is modelled
by the stable `List.insertionSort`. -/
def selectAndTruncate (pop : List Prog) (N : ℕ) : List Prog :=
  ((pop.insertionSort crowdingGe).insertionSort rankLe).take N

/-- The combined order produced by the two stable sorts: rank strictly
ascending, and crowding distance descending between programs of equal
rank. -/
def selOrder (a b : Prog) : Prop :=
  a.rank < b.rank ∨ (a.rank = b.rank ∧ b.crowding_distance ≤ a.crowding_distance)

instance : DecidableRel selOrder := fun a b => inferInstanceAs (Decidable (_ ∨ _))

theorem selOrder_rank_le {a b : Prog} (h : selOrder a b) : a.rank ≤ b.rank := by
  rcases h with h | ⟨h, _⟩
  · exact le_of_lt h
  · exact le_of_eq h

/-- Inserting `a` by rank into a `selOrder`-sorted list keeps it sorted,
provided `a`'s crowding distance dominates the whole list (which is the
case when `a` was the head of the crowding-sorted input). -/
theorem pairwise_orderedInsert_selOrder (a : Prog) :
    ∀ s : List Prog, s.Pairwise selOrder → (∀ x ∈ s, crowdingGe a x) →
      (s.orderedInsert rankLe a).Pairwise selOrder := by
  intro s
  induction s with
  | nil => intro _ _; simp [List.orderedInsert]
  | cons b s' ih =>
    intro hpw hcd
    have hb := List.pairwise_cons.mp hpw
    rw [List.orderedInsert]
    by_cases hr : rankLe a b
    · rw [if_pos hr]
      refine List.Pairwise.cons ?_ hpw
      intro y hy
      rcases List.mem_cons.mp hy with rfl | hy'
      · rcases lt_or_eq_of_le hr with hlt | heq
        · exact Or.inl hlt
        · exact Or.inr ⟨heq, hcd y (List.mem_cons_self _ _)⟩
      · have hby : selOrder b y := hb.1 y hy'
        have h1 : a.rank ≤ b.rank := hr
        have h2 : b.rank ≤ y.rank := selOrder_rank_le hby
        rcases lt_or_eq_of_le (le_trans h1 h2) with hlt | heq
        · exact Or.inl hlt
        · exact Or.inr ⟨heq, hcd y (List.mem_cons_of_mem _ hy')⟩
    · rw [if_neg hr]
      refine List.Pairwise.cons ?_
        (ih hb.2 (fun x hx => hcd x (List.mem_cons_of_mem _ hx)))
      intro y hy
      rcases (List.mem_orderedInsert rankLe).mp hy with rfl | hy'
      · have : b.rank < y.rank := lt_of_not_le hr
        exact Or.inl this
      · exact hb.1 y hy'

/-- The rank sort of a crowding-sorted list is sorted by the combined
`selOrder`: this is exactly the stability property the two-pass sort relies
on. -/
theorem pairwise_insertionSort_selOrder :
    ∀ l : List Prog, l.Pairwise crowdingGe →
      (l.insertionSort rankLe).Pairwise selOrder := by
  intro l
  induction l with
  | nil => intro _; simp [List.insertionSort]
  | cons a l ih =>
    intro hpw
    have ha := List.pairwise_cons.mp hpw
    rw [List.insertionSort]
    refine pairwise_orderedInsert_selOrder a _ (ih ha.2) ?_
    intro x hx
    exact ha.1 x ((List.mem_insertionSort rankLe).mp hx)

/-! ## Claims C1, C5, C9 -/

/-- C1: for every population of size at least `N`, `selectAndTruncate`
(the two stable sorts of SymbolicRegressor.py lines 273–276 followed by
truncation) yields exactly `N` survivors, ordered by ascending rank with
descending crowding distance inside each rank (the within-rank crowding
order survives the rank sort by stability). -/
theorem claim_C1_selectAndTruncate (pop : List Prog) (N : ℕ)
    (h : N ≤ pop.length) :
    (selectAndTruncate pop N).length = N ∧
      (selectAndTruncate pop N).Pairwise selOrder := by
  constructor
  · unfold selectAndTruncate
    rw [List.length_take, List.length_insertionSort, List.length_insertionSort]
    exact Nat.min_eq_left h
  · unfold selectAndTruncate
    refine List.Pairwise.sublist (List.take_sublist _ _) ?_
    exact pairwise_insertionSort_selOrder _ (List.sorted_insertionSort crowdingGe pop)

/-- Demonstration population for the C1 witness: three programs across two
ranks with distinct crowding distances. -/
def c1DemoPop : List Prog :=
  [⟨[1], true, false, 2, 5, 3, false⟩,
   ⟨[2], true, false, 1, 1, 4, false⟩,
   ⟨[3], true, false, 1, 9, 5, false⟩]

/-- Witness for C1 at a concrete population of size 3 with `N = 2`. -/
theorem claim_C1_witness :
    (selectAndTruncate c1DemoPop 2).length = 2 ∧
      (selectAndTruncate c1DemoPop 2).Pairwise selOrder :=
  claim_C1_selectAndTruncate c1DemoPop 2 (by decide)

/-- A mathematically invalid, unmarked program: `drop_duplicates` retains
it even though it is invalid. -/
def invalidSurvivor : Prog := ⟨[0], false, false, 0, 0, 0, false⟩

/-- C5 counterexample: the claim says no invalid program survives
`drop_duplicates`, but the filter at SymbolicRegressor.py lines 84–85 keeps
every program whose `_is_duplicated` flag is clear, valid or not: an
invalid, non-duplicated program survives. -/
theorem claim_C5_counterexample :
    invalidSurvivor ∈ drop_duplicates [invalidSurvivor] ∧
      invalidSurvivor.is_valid = false := by
  constructor
  · decide
  · rfl

/-- C5 (amended): after `drop_duplicates` the retained population contains
exactly the programs whose `_is_duplicated` flag is clear; a program is
marked duplicate when some earlier, non-duplicate, valid program has an
identical fitness vector — hence no retained valid program is followed by a
retained program with the same fitness vector.  Invalid non-duplicate
programs survive (their removal is `drop_invalids`'s separate job). -/
theorem claim_C5_amended (pop : List Prog) :
    (∀ p ∈ drop_duplicates pop, p.is_duplicated = false) ∧
      (drop_duplicates pop).Pairwise
        (fun a b => a.is_valid = true → a.fitness ≠ b.fitness) :=
  ⟨drop_duplicates_unmarked pop, drop_duplicates_pairwise pop⟩

/-- Demonstration population for the C5 witness: a valid program, an exact
duplicate of it, and an invalid program. -/
def c5DemoPop : List Prog :=
  [⟨[1], true, false, 0, 0, 0, false⟩,
   ⟨[1], true, false, 0, 0, 1, false⟩,
   ⟨[2], false, false, 0, 0, 2, false⟩]

/-- Witness for C5 (amended) at a concrete population. -/
theorem claim_C5_witness :
    (∀ p ∈ drop_duplicates c5DemoPop, p.is_duplicated = false) ∧
      (drop_duplicates c5DemoPop).Pairwise
        (fun a b => a.is_valid = true → a.fitness ≠ b.fitness) :=
  claim_C5_amended c5DemoPop

/-- C9: `drop_duplicates` is idempotent — applying it twice yields the same
population as applying it once.  After one application every retained
program is unmarked and no retained valid program is followed by an
equal-fitness program, so the second marking pass marks nothing and the
second filter removes nothing. -/
theorem claim_C9_idempotent (pop : List Prog) :
    drop_duplicates (drop_duplicates pop) = drop_duplicates pop :=
  drop_duplicates_fixed _ (drop_duplicates_unmarked pop) (drop_duplicates_pairwise pop)

/-! ## Evolutionary loop controller (SymbolicRegressor.py `fit` / `_fit`) -/

/-- Modelled from the spec: the external collaborators of the controller.
`offspring` stands for the `get_offspring` batch run through the worker
pool (lines 208–218; `multiobjective/training.py` is not under `src/`),
`newProgram i` for the `i`-th parallel call of `generate_population`
(initial construction and refill), `rank` for `create_pareto_front`,
`crowd` for `crowding_distance` (both in `training.py`), `hv` for the
pygmo hypervolume computation of lines 350–360 (`none` means that
computation raised), and `genDuration g` for the wall-clock time of
generation `g`.  All controller claims below are proved for every
instantiation of these collaborators. -/
structure GenOps where
  offspring : ℤ → List Prog → List Prog
  newProgram : ℕ → Prog
  rank : List Prog → List Prog
  crowd : List Prog → List Prog
  hv : List Prog → Option ℚ
  genDuration : ℤ → ℚ

/-- Arguments of `fit` that the embedded control flow reads. -/
structure FitConfig where
  generations : ℤ
  population_size : ℕ
  verbose : ℤ
  stop_at_convergence : Bool
deriving DecidableEq, Repr

/-- The mutable attributes of a `SymbolicRegressor` instance that `fit` and
`_fit` touch. -/
structure SRState where
  generation : ℤ
  status : String
  population : List Prog
  best_program : Option Prog
  best_programs_history : List Prog
  first_pareto_front_history : List (List Prog)
  fpf_hypervolume : Option ℚ
  fpf_hypervolume_history : List ℚ
  average_complexity : Option ℚ
  converged_generation : Option ℤ
  training_duration : Option ℚ
  elapsed_time : ℚ
deriving DecidableEq, Repr

/-- The `first_pareto_front` property (SymbolicRegressor.py lines
380–382). -/
def first_pareto_front (pop : List Prog) : List Prog :=
  pop.filter (fun p => p.rank == 1)

/-- Rational mean, modelling `np.mean` over a list of floats. -/
def qmean (l : List ℚ) : ℚ := l.sum / l.length

/-- The `hypervolume` property (SymbolicRegressor.py lines 348–366): on
success the computed value is stored and appended to the history; when the
pygmo computation raises, `0` is stored and appended instead. -/
def hvProperty (ops : GenOps) (s : SRState) : SRState :=
  match ops.hv (first_pareto_front s.population) with
  | some h =>
    { s with
      fpf_hypervolume := some h
      fpf_hypervolume_history := s.fpf_hypervolume_history ++ [h] }
  | none =>
    { s with
      fpf_hypervolume := some 0
      fpf_hypervolume_history := s.fpf_hypervolume_history ++ [0] }

/-- Points inside one generation's body at which an asynchronous
`KeyboardInterrupt` is modelled as arriving: right after the generation
counter is incremented (before any population mutation — the bulk of the
wall-clock time, offspring generation, sits there), or right after the raw
offspring have been merged into the population (line 220). -/
inductive IPoint
  | atStart
  | afterMerge
deriving DecidableEq, Repr

/-- Outcome of one iteration of the `while True` loop of `_fit`. -/
inductive StepOut
  | next (s : SRState)
  | finished (s : SRState)
  | interrupted (s : SRState)
  | errored
deriving DecidableEq, Repr

/-- The population pipeline of one completed generation body
(SymbolicRegressor.py lines 204–276): merge offspring, deduplicate, drop
invalids, refill below `2·N`, rank, crowd, select and truncate. -/
def pipelinePopulation (cfg : FitConfig) (ops : GenOps) (g : ℤ)
    (pop : List Prog) : List Prog :=
  let pop1 := pop ++ ops.offspring g pop
  let pop2 := drop_duplicates pop1
  let pop3 := drop_invalids pop2
  let pop4 :=
    if pop3.length < 2 * cfg.population_size then
      pop3 ++ (List.range (2 * cfg.population_size - pop3.length)).map ops.newProgram
    else pop3
  let pop5 := ops.crowd (ops.rank pop4)
  selectAndTruncate pop5 cfg.population_size

/-- The convergence bookkeeping of SymbolicRegressor.py lines 321–324: on
the first convergence the current generation is stored (the Python
truthiness test on `converged_generation` is a `None` test here, since the
stored generation is always at least 1). -/
def recordConvergence (g : ℤ) (b : Prog) (s4 : SRState) : SRState :=
  if b.converged then
    if s4.converged_generation = none then
      { s4 with converged_generation := some g }
    else s4
  else s4

/-- The record-keeping of lines 278–289 of SymbolicRegressor.py, before the
convergence bookkeeping. -/
def recordedState (cfg : FitConfig) (ops : GenOps) (s1 : SRState)
    (b : Prog) (rest : List Prog) : SRState :=
  let s3 : SRState := { s1 with
    status := "Creating crowding distance",
    population := b :: rest,
    best_program := some b,
    best_programs_history := s1.best_programs_history ++ [b],
    first_pareto_front_history :=
      s1.first_pareto_front_history ++ [first_pareto_front (b :: rest)],
    average_complexity := some (qmean ((b :: rest).map Prog.complexity)) }
  if cfg.verbose > 1 then hvProperty ops s3 else s3

/-- The state after the record-keeping and convergence bookkeeping of a
completed generation body (SymbolicRegressor.py lines 278–331, without the
terminal-status and elapsed-time writes of the branch taken
afterwards). -/
def completedState (cfg : FitConfig) (ops : GenOps) (s1 : SRState) (g : ℤ)
    (b : Prog) (rest : List Prog) : SRState :=
  recordConvergence g b (recordedState cfg ops s1 b rest)

/-- One iteration of the `while True` loop of `_fit` (SymbolicRegressor.py
lines 174–346).  The transient status strings ("Generating offspring",
"Refilling population", "Creating pareto front") are unobservable inside a
completed iteration of this big-step embedding; the status a completed
iteration leaves behind is the last one written ("Creating crowding
distance", or a terminal status).  Printing and checkpointing do not change
the modelled state (a checkpoint write failure is caught at lines 333–337).
`sched g` says whether (and where) the interrupt arrives during generation
`g`'s body. -/
def generationStep (cfg : FitConfig) (ops : GenOps) (sched : ℤ → Option IPoint)
    (s : SRState) : StepOut :=
  if cfg.generations > 0 ∧ s.generation ≥ cfg.generations then
    .finished { s with status := "Terminated: generations completed" }
  else
    let g := s.generation + 1
    let s1 : SRState := { s with generation := g }
    match sched g with
    | some .atStart => .interrupted s1
    | some .afterMerge =>
      .interrupted
        { s1 with
          status := "Generating offspring"
          population := s1.population ++ ops.offspring g s1.population }
    | none =>
      match pipelinePopulation cfg ops g s1.population with
      | [] => .errored
      | b :: rest =>
        let s5 := completedState cfg ops s1 g b rest
        if b.converged ∧ cfg.stop_at_convergence then
          .finished { s5 with status := "Terminated: converged" }
        else if cfg.generations > 0 ∧ g = cfg.generations then
          .finished { s5 with status := "Terminated: generations completed" }
        else
          .next { s5 with elapsed_time := s5.elapsed_time + ops.genDuration g }

/-- Outcome of running the loop of `_fit` to completion. -/
inductive LoopOut
  | finished (s : SRState)
  | interrupted (s : SRState)
  | errored
  | fuelOut (s : SRState)
deriving DecidableEq, Repr

/-- The `while True` loop of `_fit`, driven by a fuel counter (with
`generations > 0` the loop body runs at most `generations` times, so any
fuel of at least that size is enough; `fuelOut` is a model artifact with no
Python counterpart). -/
def runLoop (cfg : FitConfig) (ops : GenOps) (sched : ℤ → Option IPoint) :
    ℕ → SRState → LoopOut
  | 0, s => .fuelOut s
  | fuel + 1, s =>
    match generationStep cfg ops sched s with
    | .next s' => runLoop cfg ops sched fuel s'
    | .finished s' => .finished s'
    | .interrupted s' => .interrupted s'
    | .errored => .errored

/-- The body of `_fit` (SymbolicRegressor.py lines 145–346): when no
population exists yet, build one of `population_size` independent programs
(lines 156–169), then run the generation loop. -/
def fitBody (cfg : FitConfig) (ops : GenOps) (sched : ℤ → Option IPoint)
    (fuel : ℕ) (s : SRState) : LoopOut :=
  let s' :=
    if s.population.isEmpty then
      { s with
        status := "Generating population"
        population := (List.range cfg.population_size).map ops.newProgram }
    else s
  runLoop cfg ops sched fuel s'

/-- Outcome of a call to `fit`. -/
inductive FitOut
  | ok (s : SRState)
  | raised (e : PyError)
  | fuelOut
deriving DecidableEq, Repr

/-- The `fit` entry point (SymbolicRegressor.py lines 107–143): run `_fit`;
on a `KeyboardInterrupt` roll the generation counter back by one, record
the training duration, set the terminal interrupted status and return
normally.  On normal completion only the training duration is recorded.
`wallTime` stands for the `perf_counter` difference; an exception other
than `KeyboardInterrupt` (e.g. the `IndexError` of an empty selection)
propagates to the caller as `raised`. -/
def fit (cfg : FitConfig) (ops : GenOps) (sched : ℤ → Option IPoint)
    (fuel : ℕ) (wallTime : ℚ) (s : SRState) : FitOut :=
  match fitBody cfg ops sched fuel s with
  | .finished s' => .ok { s' with training_duration := some wallTime }
  | .interrupted s' => .ok { s' with
      generation := s'.generation - 1,
      training_duration := some wallTime,
      status := "Interrupted by KeyboardInterrupt" }
  | .errored => .raised .indexError
  | .fuelOut _ => .fuelOut

/-! ## Claim C4 -/

/-- C4 (amended): interrupting the run at the start of generation
`g = s.generation + 1` (before any population mutation, i.e. while the
offspring workers are running) makes `fit` return cleanly with the
generation counter rolled back to `g - 1 = s.generation`, the terminal
interrupted status, the training duration recorded, and the population
untouched — i.e. still the last fully-selected one.  (The unamended claim
fails when the interrupt arrives after the offspring merge; see the
counterexample.) -/
theorem claim_C4_interrupt (cfg : FitConfig) (ops : GenOps)
    (sched : ℤ → Option IPoint) (fuel : ℕ) (wallTime : ℚ) (s : SRState)
    (hpop : s.population ≠ [])
    (hsched : sched (s.generation + 1) = some .atStart)
    (hguard : ¬(cfg.generations > 0 ∧ s.generation ≥ cfg.generations))
    (hfuel : 1 ≤ fuel) :
    fit cfg ops sched fuel wallTime s =
      .ok { s with
        status := "Interrupted by KeyboardInterrupt"
        training_duration := some wallTime } := by
  obtain ⟨f, rfl⟩ : ∃ f, fuel = f + 1 := ⟨fuel - 1, by omega⟩
  have hne : s.population.isEmpty = false := by
    cases hp : s.population with
    | nil => exact absurd hp hpop
    | cons a l => simp
  have hstep : generationStep cfg ops sched s =
      .interrupted { s with generation := s.generation + 1 } := by
    unfold generationStep
    rw [if_neg hguard]
    simp only [hsched]
  unfold fit fitBody
  simp only [hne, Bool.false_eq_true, if_false, runLoop, hstep]
  have hg : s.generation + 1 - 1 = s.generation := by ring
  simp [hg]

/-! ## Claim C6 helper lemmas -/

theorem hvProperty_best (ops : GenOps) (s : SRState) :
    (hvProperty ops s).best_programs_history = s.best_programs_history := by
  unfold hvProperty
  rcases ops.hv (first_pareto_front s.population) with _ | h <;> rfl

theorem hvProperty_fpf (ops : GenOps) (s : SRState) :
    (hvProperty ops s).first_pareto_front_history = s.first_pareto_front_history := by
  unfold hvProperty
  rcases ops.hv (first_pareto_front s.population) with _ | h <;> rfl

theorem hvProperty_hv_len (ops : GenOps) (s : SRState) :
    (hvProperty ops s).fpf_hypervolume_history.length =
      s.fpf_hypervolume_history.length + 1 := by
  unfold hvProperty
  rcases ops.hv (first_pareto_front s.population) with _ | h <;> simp

/-- A completed generation body appends exactly one entry to the best and
first-Pareto-front histories, and one entry to the hypervolume history
exactly when `verbose > 1`. -/
theorem completedState_history_lengths (cfg : FitConfig) (ops : GenOps)
    (s1 : SRState) (g : ℤ) (b : Prog) (rest : List Prog) :
    (completedState cfg ops s1 g b rest).best_programs_history.length =
        s1.best_programs_history.length + 1 ∧
      (completedState cfg ops s1 g b rest).first_pareto_front_history.length =
        s1.first_pareto_front_history.length + 1 ∧
      (completedState cfg ops s1 g b rest).fpf_hypervolume_history.length =
        s1.fpf_hypervolume_history.length + (if cfg.verbose > 1 then 1 else 0) := by
  have hconv : ∀ s4 : SRState,
      (recordConvergence g b s4).best_programs_history = s4.best_programs_history ∧
      (recordConvergence g b s4).first_pareto_front_history = s4.first_pareto_front_history ∧
      (recordConvergence g b s4).fpf_hypervolume_history = s4.fpf_hypervolume_history := by
    intro s4
    unfold recordConvergence
    split_ifs <;> simp
  unfold completedState
  rcases hconv (recordedState cfg ops s1 b rest) with ⟨hc1, hc2, hc3⟩
  rw [hc1, hc2, hc3]
  unfold recordedState
  by_cases h1 : cfg.verbose > 1 <;>
    simp [h1, hvProperty_best, hvProperty_fpf, hvProperty_hv_len]

/-! ## Claim C6 -/

/-- C6 (amended): every completed generation (one that ends the loop body
in `next`, or in `finished` having actually done the work, i.e. with the
generation counter advanced) appends exactly one entry to the best-program
history and to the first-Pareto-front history; the hypervolume history
gains one entry exactly when `verbose > 1` (the `hypervolume` property is
only invoked from the verbose report at line 288), and none otherwise. -/
theorem claim_C6_histories (cfg : FitConfig) (ops : GenOps)
    (sched : ℤ → Option IPoint) (s s' : SRState)
    (hstep : generationStep cfg ops sched s = .next s' ∨
      (generationStep cfg ops sched s = .finished s' ∧
        s'.generation = s.generation + 1)) :
    s'.best_programs_history.length = s.best_programs_history.length + 1 ∧
      s'.first_pareto_front_history.length
        = s.first_pareto_front_history.length + 1 ∧
      s'.fpf_hypervolume_history.length
        = s.fpf_hypervolume_history.length + (if cfg.verbose > 1 then 1 else 0) := by
  unfold generationStep at hstep
  by_cases htop : cfg.generations > 0 ∧ s.generation ≥ cfg.generations
  · rw [if_pos htop] at hstep
    rcases hstep with h | ⟨h, hg⟩
    · exact absurd h (by simp)
    · cases h
      simp at hg
  · rw [if_neg htop] at hstep
    cases hs : sched (s.generation + 1) with
    | some ip =>
      cases ip <;> simp only [hs] at hstep <;>
        rcases hstep with h | ⟨h, _⟩ <;> simp at h
    | none =>
      simp only [hs] at hstep
      cases hsel : pipelinePopulation cfg ops (s.generation + 1) s.population with
      | nil =>
        simp only [hsel] at hstep
        rcases hstep with h | ⟨h, _⟩ <;> simp at h
      | cons b rest =>
        simp only [hsel] at hstep
        rcases completedState_history_lengths cfg ops
          { s with generation := s.generation + 1 } (s.generation + 1) b rest
          with ⟨hb, hf, hh⟩
        split_ifs at hstep with h1 h2
        · rcases hstep with h | ⟨h, _⟩
          · simp at h
          · cases h
            simp only at hb hf hh
            refine ⟨by simpa using hb, by simpa using hf, by simpa using hh⟩
        · rcases hstep with h | ⟨h, _⟩
          · simp at h
          · cases h
            refine ⟨by simpa using hb, by simpa using hf, by simpa using hh⟩
        · rcases hstep with h | ⟨h, _⟩
          · cases h
            refine ⟨by simpa using hb, by simpa using hf, by simpa using hh⟩
          · simp at h

/-! ## Concrete controller runs for the C4/C6 witnesses and
counterexamples -/

/-- A valid rank-1 program used in concrete controller runs. -/
def ctrlProg : Prog := ⟨[1], true, false, 1, 0, 1, false⟩

/-- A second, distinct valid rank-1 program (the offspring). -/
def ctrlOff : Prog := ⟨[2], true, false, 1, 0, 2, false⟩

/-- Concrete configuration: budget of 5 generations, population size 1,
verbosity 0, stop at convergence. -/
def ctrlCfg : FitConfig := ⟨5, 1, 0, true⟩

/-- Concrete collaborators: one fixed offspring per generation, a fixed
refill program, identity ranking passes, failing hypervolume backend,
zero-duration generations. -/
def ctrlOps : GenOps := ⟨fun _ _ => [ctrlOff], fun _ => ctrlOff, id, id, fun _ => none, fun _ => 0⟩

/-- Concrete starting state: generation 0 with a one-program population. -/
def ctrlState : SRState := ⟨0, "Uninitialized", [ctrlProg], none, [], [], none, [], none, none, none, 0⟩

/-- Interrupt arriving at the start of generation 1. -/
def ctrlSchedStart : ℤ → Option IPoint := fun g => if g = 1 then some .atStart else none

/-- Interrupt arriving after the offspring merge of generation 1. -/
def ctrlSchedMerge : ℤ → Option IPoint := fun g => if g = 1 then some .afterMerge else none

/-- No interrupt ever arrives. -/
def ctrlSchedNone : ℤ → Option IPoint := fun _ => none

/-- Witness for C4 (amended) at a concrete run interrupted at the start of
generation 1. -/
theorem claim_C4_witness :
    fit ctrlCfg ctrlOps ctrlSchedStart 3 7 ctrlState =
      .ok { ctrlState with
        status := "Interrupted by KeyboardInterrupt"
        training_duration := some 7 } :=
  claim_C4_interrupt ctrlCfg ctrlOps ctrlSchedStart 3 7 ctrlState
    (by decide) (by decide) (by decide) (by decide)

/-- C4 counterexample: a run interrupted mid-generation 1 — after the raw
offspring were merged (SymbolicRegressor.py line 220) — returns cleanly
with the interrupted status and `generation = 0`, but its population is the
merged two-program list, not the last fully-selected population
`[ctrlProg]`: the claim's "population remains the last fully-selected one"
fails for interrupts that arrive after the merge. -/
theorem claim_C4_counterexample :
    fit ctrlCfg ctrlOps ctrlSchedMerge 3 7 ctrlState =
      .ok { ctrlState with
        status := "Interrupted by KeyboardInterrupt"
        training_duration := some 7
        population := [ctrlProg, ctrlOff] } ∧
      [ctrlProg, ctrlOff] ≠ ctrlState.population := by
  constructor
  · decide
  · decide

/-- The state after the completed generation 1 of the concrete
uninterrupted run (defined by running the step itself, so the witness and
counterexample below genuinely evaluate the embedded code). -/
def ctrlState1 : SRState :=
  match generationStep ctrlCfg ctrlOps ctrlSchedNone ctrlState with
  | .next s' => s'
  | _ => ctrlState

/-- C6 counterexample: with `verbose = 0` a completed generation appends to
the best-program and first-Pareto-front histories but appends nothing to
the hypervolume history (the `hypervolume` property only runs inside the
`verbose > 1` report, SymbolicRegressor.py line 288) — against the claim
that all three histories gain one entry per completed generation regardless
of verbosity. -/
theorem claim_C6_counterexample :
    generationStep ctrlCfg ctrlOps ctrlSchedNone ctrlState = .next ctrlState1 ∧
      ctrlState1.best_programs_history.length = 1 ∧
      ctrlState1.first_pareto_front_history.length = 1 ∧
      ctrlState1.fpf_hypervolume_history = [] := by
  refine ⟨rfl, rfl, rfl, rfl⟩

/-- Witness for C6 (amended) at the same concrete completed generation. -/
theorem claim_C6_witness :
    ctrlState1.best_programs_history.length =
        ctrlState.best_programs_history.length + 1 ∧
      ctrlState1.first_pareto_front_history.length
        = ctrlState.first_pareto_front_history.length + 1 ∧
      ctrlState1.fpf_hypervolume_history.length
        = ctrlState.fpf_hypervolume_history.length +
            (if ctrlCfg.verbose > 1 then 1 else 0) :=
  claim_C6_histories ctrlCfg ctrlOps ctrlSchedNone ctrlState ctrlState1
    (Or.inl rfl)

/-! ## Fitness metrics (multiobjective/fitness/Regression.py)

Metric evaluation is modelled as a function of the outcome of
`program.evaluate(data)`: either a vector of predictions or the kind of
exception its use in the metric formula raises.  The constant optimization
performed at the top of each `evaluate` mutates the program's constants
before prediction, so it is absorbed into the prediction input; the lazy
creation of the weight column (binned weighting) is absorbed into the
weights input.  Metric results are floats: finite, `np.inf`, or
`np.nan`. -/

/-- Outcome of `program.evaluate(data)` as seen by a metric formula. -/
inductive PredResult
  | ok (pred : List ℝ)
  | typeErr
  | valueErr
  | attrErr

/-- A float returned by a metric: finite, `np.inf`, or `np.nan`. -/
inductive FitVal
  | fin (x : ℝ)
  | inf
  | nan

/-- Mean of a list of reals, modelling `.mean()` on float arrays. -/
noncomputable def rmean (l : List ℝ) : ℝ := l.sum / l.length

/-- Population standard deviation, modelling `np.std`. -/
noncomputable def npStd (l : List ℝ) : ℝ :=
  Real.sqrt (rmean (l.map (fun x => (x - rmean l) ^ 2)))

/-- `WeightedMeanSquaredError.evaluate` (Regression.py lines 18–39):
weighted (or plain, when the weights name is falsy) mean of squared errors;
`TypeError` and `ValueError` in the formula are converted to `np.inf`; any
other exception (e.g. `AttributeError`) is uncaught. -/
noncomputable def WeightedMeanSquaredError_evaluate (pred : PredResult)
    (target : List ℝ) (weights : Option (List ℝ)) : Except PyError FitVal :=
  match pred with
  | .ok p =>
    match weights with
    | some w =>
      .ok (.fin (rmean (List.zipWith (fun d wi => d * wi)
        (List.zipWith (fun pi ti => (pi - ti) ^ 2) p target) w)))
    | none => .ok (.fin (rmean (List.zipWith (fun pi ti => (pi - ti) ^ 2) p target)))
  | .typeErr => .ok .inf
  | .valueErr => .ok .inf
  | .attrErr => .error .attributeError

/-- `WeightedMeanAbsoluteError.evaluate` (Regression.py lines 53–74). -/
noncomputable def WeightedMeanAbsoluteError_evaluate (pred : PredResult)
    (target : List ℝ) (weights : Option (List ℝ)) : Except PyError FitVal :=
  match pred with
  | .ok p =>
    match weights with
    | some w =>
      .ok (.fin (rmean (List.zipWith (fun d wi => d * wi)
        (List.zipWith (fun pi ti => |pi - ti|) p target) w)))
    | none => .ok (.fin (rmean (List.zipWith (fun pi ti => |pi - ti|) p target)))
  | .typeErr => .ok .inf
  | .valueErr => .ok .inf
  | .attrErr => .error .attributeError

/-- `WeightedRelativeRootMeanSquaredError.evaluate` (Regression.py lines
88–115): RMSE scaled by 100 over the (1e-20-guarded) weighted mean
target. -/
noncomputable def WeightedRelativeRootMeanSquaredError_evaluate
    (pred : PredResult) (target : List ℝ) (weights : Option (List ℝ)) :
    Except PyError FitVal :=
  match pred with
  | .ok p =>
    match weights with
    | some w =>
      let y_av := 1e-20 + rmean (List.zipWith (fun ti wi => ti * wi) target w)
      .ok (.fin (Real.sqrt (rmean (List.zipWith (fun d wi => d * wi)
        (List.zipWith (fun pi ti => (pi - ti) ^ 2) p target) w)) * 100 / y_av))
    | none =>
      let y_av := 1e-20 + rmean target
      .ok (.fin (Real.sqrt
        (rmean (List.zipWith (fun pi ti => (pi - ti) ^ 2) p target)) * 100 / y_av))
  | .typeErr => .ok .inf
  | .valueErr => .ok .inf
  | .attrErr => .error .attributeError

/-- `NotConstant.evaluate` (Regression.py lines 128–140): the violation
`max(0, epsilon - std(pred))`, but `np.nan` on `AttributeError` and
`epsilon` on `TypeError`; a `ValueError` is uncaught. -/
noncomputable def NotConstant_evaluate (pred : PredResult) (epsilon : ℝ) :
    Except PyError FitVal :=
  match pred with
  | .ok p => .ok (.fin (max 0 (epsilon - npStd p)))
  | .typeErr => .ok (.fin epsilon)
  | .valueErr => .error .valueError
  | .attrErr => .ok .nan

/-- `ValueRange.evaluate` (Regression.py lines 153–167): mean violation
above the upper bound plus mean violation below the lower bound; there is
no `try` block, so every exception propagates. -/
noncomputable def ValueRange_evaluate (pred : PredResult)
    (lower_bound upper_bound : ℝ) : Except PyError FitVal :=
  match pred with
  | .ok p =>
    let upper := rmean (p.map (fun x =>
      if x - upper_bound ≥ 0 then x - upper_bound else 0))
    let lower := rmean (p.map (fun x =>
      if lower_bound - x ≥ 0 then lower_bound - x else 0))
    .ok (.fin (upper + lower))
  | .typeErr => .error .typeError
  | .valueErr => .error .valueError
  | .attrErr => .error .attributeError

/-! ## Claim C7 -/

/-- C7 counterexample: `NotConstant.evaluate` returns `np.nan` — an
undefined value — when the standard-deviation computation raises
`AttributeError` (Regression.py lines 137–138), against the claim that a
fitness evaluation never returns an undefined scalar. -/
theorem claim_C7_counterexample :
    NotConstant_evaluate PredResult.attrErr 1 = .ok .nan := rfl

/-- C7 (amended): the minimized regression metrics (weighted MSE, MAE and
relative RMSE) return `+infinity` on a `TypeError` or `ValueError`;
`ValueRange` returns the violation magnitude, which is `0` when every
prediction lies within the bounds; `NotConstant` returns the violation
`max(0, ε − std)` — `0` when the non-constancy constraint `std ≥ ε` is
satisfied — and `ε` on a `TypeError`, but returns `np.nan` (an undefined
value) on an `AttributeError`. -/
theorem claim_C7_amended (t : List ℝ) (w : Option (List ℝ)) (eps lb ub : ℝ) :
    (WeightedMeanSquaredError_evaluate .typeErr t w = .ok .inf) ∧
    (WeightedMeanSquaredError_evaluate .valueErr t w = .ok .inf) ∧
    (WeightedMeanAbsoluteError_evaluate .typeErr t w = .ok .inf) ∧
    (WeightedMeanAbsoluteError_evaluate .valueErr t w = .ok .inf) ∧
    (WeightedRelativeRootMeanSquaredError_evaluate .typeErr t w = .ok .inf) ∧
    (WeightedRelativeRootMeanSquaredError_evaluate .valueErr t w = .ok .inf) ∧
    (NotConstant_evaluate .typeErr eps = .ok (.fin eps)) ∧
    (NotConstant_evaluate .attrErr eps = .ok .nan) ∧
    (∀ p : List ℝ, eps ≤ npStd p →
      NotConstant_evaluate (.ok p) eps = .ok (.fin 0)) ∧
    (∀ p : List ℝ, (∀ x ∈ p, lb ≤ x ∧ x ≤ ub) →
      ValueRange_evaluate (.ok p) lb ub = .ok (.fin 0)) := by
  refine ⟨rfl, rfl, rfl, rfl, rfl, rfl, rfl, rfl, ?_, ?_⟩
  · intro p hstd
    have hmax : max 0 (eps - npStd p) = 0 := max_eq_left (by linarith)
    simp only [NotConstant_evaluate, hmax]
  · intro p hin
    have hup0 : rmean (p.map (fun x =>
        if x - ub ≥ 0 then x - ub else 0)) = 0 := by
      unfold rmean
      rw [List.sum_eq_zero, zero_div]
      intro x hx
      obtain ⟨y, hy, hxy⟩ := List.mem_map.mp hx
      rcases hin y hy with ⟨h1, h2⟩
      rw [← hxy]
      by_cases h : y - ub ≥ 0
      · rw [if_pos h]; linarith
      · rw [if_neg h]
    have hlo0 : rmean (p.map (fun x =>
        if lb - x ≥ 0 then lb - x else 0)) = 0 := by
      unfold rmean
      rw [List.sum_eq_zero, zero_div]
      intro x hx
      obtain ⟨y, hy, hxy⟩ := List.mem_map.mp hx
      rcases hin y hy with ⟨h1, h2⟩
      rw [← hxy]
      by_cases h : lb - y ≥ 0
      · rw [if_pos h]; linarith
      · rw [if_neg h]
    simp only [ValueRange_evaluate, hup0, hlo0]
    norm_num

/-- Witness for C7 (amended) at concrete inputs: a failing prediction for
the MSE metric, a spread prediction `[0, 2]` whose standard deviation `1`
meets the `NotConstant` threshold, and an in-range prediction for
`ValueRange`. -/
theorem claim_C7_witness :
    WeightedMeanSquaredError_evaluate .typeErr [1] none = .ok .inf ∧
      NotConstant_evaluate (.ok [0, 2]) 1 = .ok (.fin 0) ∧
      ValueRange_evaluate (.ok [0, 1]) 0 1 = .ok (.fin 0) := by
  obtain ⟨h1, _, _, _, _, _, _, _, h9, h10⟩ :=
    claim_C7_amended [1] none 1 0 1
  refine ⟨h1, h9 [0, 2] ?_, h10 [0, 1] ?_⟩
  · have hm : rmean [(0:ℝ), 2] = 1 := by
      unfold rmean
      norm_num [List.sum_cons, List.sum_nil]
    unfold npStd
    rw [hm]
    have hmap : ([(0:ℝ), 2].map (fun x => (x - 1) ^ 2)) = [1, 1] := by
      norm_num [List.map_cons, List.map_nil]
    rw [hmap]
    have hone : rmean [(1:ℝ), 1] = 1 := by
      unfold rmean
      norm_num [List.sum_cons, List.sum_nil]
    rw [hone, Real.sqrt_one]
  · intro x hx
    rcases List.mem_cons.mp hx with rfl | hx'
    · norm_num
    · rcases List.mem_cons.mp hx' with rfl | h
      · norm_num
      · simp at h

/-! ## Constant optimizers (multiobjective/optimization.py)

The three optimizers share a shape: early exits, symbolic differentiation
and `lambdify` (external sympy — absorbed into the data bundle below as the
compiled prediction/gradient functions and a flag for the `KeyError` catch
of lines 92–96), deterministic contiguous batching, and an epoch/batch loop
with a task dispatch, optional gradient clipping and a parameter update.
`np.nanmean`/`np.mean` are the plain mean in the exact real model; reading
`av_loss` when no task branch assigned it raises `UnboundLocalError`
(modelled by the fall-through of the task dispatch). -/

/-- The `constants_optimization_conf` dictionary. -/
structure OptConfig where
  learning_rate : ℝ
  batch_size : ℕ
  epochs : ℕ
  gradient_clip : Bool
  beta_1 : ℝ
  beta_2 : ℝ
  epsilon : ℝ
  l1_param : ℝ
  l2_param : ℝ

/-- The slice of a `Program` that the optimizers read: validity, feature
names, and the current values of the free constants
(`program.get_constants()`). -/
structure OProgram where
  is_valid : Bool
  features : List String
  constants : List ℝ

/-- The dataset together with the sympy-compiled functions, per batch
index: `yb i`/`wb i` are the target and weight columns of batch `i`
(all-ones weights when no weight column is given, lines 79–82), `predf i
cs` and `gradf i cs` are `pyf_prog`/`pyf_grad` evaluated on batch `i` at
constants `cs` (`gradf` yields one row array per constant), `lambdifyOk =
false` models the `KeyError` of `lambdify` (lines 92–96), and `noise`
models the `np.random.normal(0.0, var, shape)` draw of the NaN-recovery
branch. -/
structure OptData where
  nRows : ℕ
  yb : ℕ → List ℝ
  wb : ℕ → List ℝ
  predf : ℕ → List ℝ → List ℝ
  gradf : ℕ → List ℝ → List (List ℝ)
  lambdifyOk : Bool
  noise : ℝ → List ℝ

/-- Mean of a float array: `np.nanmean` coincides with `np.mean` in the
real-number model, which has no NaN. -/
noncomputable def nanmean (l : List ℝ) : ℝ := rmean l

/-- The model of `np.isnan` on exact reals: constantly false, so the
NaN-recovery branch below is provably dead (it is kept for fidelity to
lines 150–153). -/
def npIsNaN (x : ℝ) : Bool := false

/-- `np.sign`. -/
noncomputable def npSign (x : ℝ) : ℝ := if 0 < x then 1 else if x < 0 then -1 else 0

/-- Euclidean norm of a gradient vector, `np.linalg.norm`. -/
noncomputable def l2norm (g : List ℝ) : ℝ := Real.sqrt (g.map (fun x => x ^ 2)).sum

/-- Gradient clipping (lines 155–157): when enabled and the norm exceeds 1,
rescale by `norm + 1e-20`. -/
noncomputable def clipGrad (gradient_clip : Bool) (g : List ℝ) : List ℝ :=
  let n := l2norm g
  if gradient_clip ∧ 1 < n then g.map (fun x => x / (n + 1e-20)) else g

/-- The task dispatch shared by `SGD` (lines 119–148) and `ADAM` (lines
289–319): average loss and average gradient of one batch.  An unknown task
leaves `av_loss`/`av_grad` unassigned, so the `np.isnan(av_loss)` read that
follows raises `UnboundLocalError`. -/
noncomputable def taskLossGrad (task : String) (y w ypred : List ℝ)
    (grads : List (List ℝ)) : Except PyError (ℝ × List ℝ) :=
  if task = "regression:wmse" then
    .ok (nanmean (List.zipWith3 (fun wi pi yi => wi * (pi - yi) ^ 2) w ypred y),
      grads.map (fun g => nanmean (List.zipWith (fun a gi => a * gi)
        (List.zipWith3 (fun wi pi yi => 2 * wi * (pi - yi)) w ypred y) g)))
  else if task = "regression:wrrmse" then
    let y_av := rmean (List.zipWith (fun yi wi => yi * wi) y w) + 1e-20
    let sq_term := Real.sqrt
      (nanmean (List.zipWith3 (fun wi pi yi => wi * (pi - yi) ^ 2) w ypred y))
    .ok (sq_term * 100 / y_av,
      grads.map (fun g => 100 / (y_av * sq_term) * nanmean
        (List.zipWith (fun a gi => a * gi)
          (List.zipWith3 (fun wi pi yi => wi * (pi - yi)) w ypred y) g)))
  else if task = "binary:logistic" then
    let sigma := ypred.map (fun pi => 1 / (1 + Real.exp (-pi)))
    .ok (nanmean (List.zipWith3 (fun wi si yi =>
        -wi * (yi * Real.log (si + 1e-20)
          + (1 - yi) * Real.log (1 - si + 1e-20))) w sigma y),
      grads.map (fun g => nanmean (List.zipWith (fun a gi => a * gi)
        (List.zipWith3 (fun wi si yi => wi * (si - yi)) w sigma y) g)))
  else
    .error .unboundLocalError

/-- The plain-SGD constants update (lines 159–161):
`c - (lr·g + 2·lr·l2·c + lr·l1·sign c)` componentwise. -/
noncomputable def sgdUpdate (conf : OptConfig) (cs g : List ℝ) : List ℝ :=
  List.zipWith (fun c gi => c - (conf.learning_rate * gi
    + 2 * conf.learning_rate * conf.l2_param * c
    + conf.learning_rate * conf.l1_param * npSign c)) cs g

/-- The per-batch ADAM update (lines 330–340): momentum accumulators,
bias-corrected moments with the step counter `t`, and the elastic-net-fused
constants step; returns the new `(m, v, constants)`. -/
noncomputable def adamUpdate (conf : OptConfig) (t : ℕ) (m v cs g : List ℝ) :
    List ℝ × List ℝ × List ℝ :=
  let m' := List.zipWith (fun mi gi => conf.beta_1 * mi + (1 - conf.beta_1) * gi) m g
  let v' := List.zipWith (fun vi gi => conf.beta_2 * vi + (1 - conf.beta_2) * gi ^ 2) v g
  let m_hat := m'.map (fun mi => mi / (1 - conf.beta_1 ^ t))
  let v_hat := v'.map (fun vi => vi / (1 - conf.beta_2 ^ t))
  (m', v',
    List.zipWith3 (fun c mh vh =>
      c - (conf.learning_rate * mh / (Real.sqrt vh + conf.epsilon)
        + 2 * conf.learning_rate * conf.l2_param * c
        + conf.learning_rate * conf.l1_param * npSign c)) cs m_hat v_hat)

/-- Mutable loop state of `SGD`: current constants, the NaN-recovery
standard deviation `var`, the last batch's average loss, and the per-epoch
`loss`/`log` traces. -/
structure SGDState where
  cs : List ℝ
  var : ℝ
  lastLoss : ℝ
  loss : List ℝ
  log : List (List ℝ)

/-- One batch of the `SGD` inner loop (lines 110–161): evaluate prediction
and gradient, dispatch on the task, NaN-recovery (dead in the real model),
clip, update. -/
noncomputable def sgdBatchStep (conf : OptConfig) (task : String) (d : OptData)
    (i : ℕ) (st : SGDState) : Except PyError SGDState :=
  let ypred := d.predf i st.cs
  let grads := d.gradf i st.cs
  match taskLossGrad task (d.yb i) (d.wb i) ypred grads with
  | .error e => .error e
  | .ok (avLoss, avGrad) =>
    let vc : ℝ × List ℝ :=
      if npIsNaN avLoss then (st.var + 0.2, d.noise (st.var + 0.2))
      else (st.var, st.cs)
    let avGrad' := clipGrad conf.gradient_clip avGrad
    .ok { st with cs := sgdUpdate conf vc.2 avGrad', var := vc.1, lastLoss := avLoss }

/-- The batch loop of `SGD`: `k` remaining batches starting at index
`i`. -/
noncomputable def sgdBatches (conf : OptConfig) (task : String) (d : OptData) :
    ℕ → ℕ → SGDState → Except PyError SGDState
  | _, 0, st => .ok st
  | i, k + 1, st =>
    match sgdBatchStep conf task d i st with
    | .error e => .error e
    | .ok st' => sgdBatches conf task d (i + 1) k st'

/-- The epoch loop of `SGD` (lines 109–164): run all batches, then append
the constants and the last batch's average loss to the traces. -/
noncomputable def sgdEpochs (conf : OptConfig) (task : String) (d : OptData)
    (nB : ℕ) : ℕ → SGDState → Except PyError SGDState
  | 0, st => .ok st
  | e + 1, st =>
    match sgdBatches conf task d 0 nB st with
    | .error err => .error err
    | .ok st' =>
      sgdEpochs conf task d nB e
        { st' with loss := st'.loss ++ [st'.lastLoss], log := st'.log ++ [st'.cs] }

/-- `SGD` (optimization.py lines 14–166): early exits for invalid programs,
zero constants and failed `lambdify`; `int(rows/batch_size)` batches
(`ZeroDivisionError` on batch size 0, `ValueError` from `np.array_split`
when the batch count is 0); then the epoch/batch loop; returns the tuned
constants, the per-epoch loss trace and the per-epoch constants trace. -/
noncomputable def SGD (program : OProgram) (d : OptData) (conf : OptConfig)
    (task : String) : Except PyError (List ℝ × List ℝ × List (List ℝ)) :=
  if program.is_valid = false then .ok ([], [], [])
  else if program.constants.length = 0 then .ok ([], [], [])
  else if d.lambdifyOk = false then .ok ([], [], [])
  else if conf.batch_size = 0 then .error .zeroDivisionError
  else
    let n_batches := d.nRows / conf.batch_size
    if n_batches = 0 then .error .valueError
    else
      match sgdEpochs conf task d n_batches conf.epochs
          ⟨program.constants, 0, 0, [], []⟩ with
      | .error e => .error e
      | .ok st => .ok (st.cs, st.loss, st.log)

/-- Mutable loop state of `ADAM`: the `SGD` state plus the moment
accumulators and the step counter `t`. -/
structure ADAMState where
  cs : List ℝ
  m : List ℝ
  v : List ℝ
  t : ℕ
  var : ℝ
  lastLoss : ℝ
  loss : List ℝ
  log : List (List ℝ)

/-- One batch of the `ADAM` inner loop (lines 279–340). -/
noncomputable def adamBatchStep (conf : OptConfig) (task : String) (d : OptData)
    (i : ℕ) (st : ADAMState) : Except PyError ADAMState :=
  let ypred := d.predf i st.cs
  let grads := d.gradf i st.cs
  match taskLossGrad task (d.yb i) (d.wb i) ypred grads with
  | .error e => .error e
  | .ok (avLoss, avGrad) =>
    let vc : ℝ × List ℝ :=
      if npIsNaN avLoss then (st.var + 0.2, d.noise (st.var + 0.2))
      else (st.var, st.cs)
    let avGrad' := clipGrad conf.gradient_clip avGrad
    let mvc := adamUpdate conf st.t st.m st.v vc.2 avGrad'
    .ok { st with
      cs := mvc.2.2
      m := mvc.1
      v := mvc.2.1
      t := st.t + 1
      var := vc.1
      lastLoss := avLoss }

/-- The batch loop of `ADAM`. -/
noncomputable def adamBatches (conf : OptConfig) (task : String) (d : OptData) :
    ℕ → ℕ → ADAMState → Except PyError ADAMState
  | _, 0, st => .ok st
  | i, k + 1, st =>
    match adamBatchStep conf task d i st with
    | .error e => .error e
    | .ok st' => adamBatches conf task d (i + 1) k st'

/-- The epoch loop of `ADAM` (lines 278–343). -/
noncomputable def adamEpochs (conf : OptConfig) (task : String) (d : OptData)
    (nB : ℕ) : ℕ → ADAMState → Except PyError ADAMState
  | 0, st => .ok st
  | e + 1, st =>
    match adamBatches conf task d 0 nB st with
    | .error err => .error err
    | .ok st' =>
      adamEpochs conf task d nB e
        { st' with loss := st'.loss ++ [st'.lastLoss], log := st'.log ++ [st'.cs] }

/-- `ADAM` (optimization.py lines 169–345): the same shape as `SGD` with
the adaptive update; `m` and `v` start at the scalar 0, which broadcasts to
zero vectors at the first update, and `t` starts at 1. -/
noncomputable def ADAM (program : OProgram) (d : OptData) (conf : OptConfig)
    (task : String) : Except PyError (List ℝ × List ℝ × List (List ℝ)) :=
  if program.is_valid = false then .ok ([], [], [])
  else if program.constants.length = 0 then .ok ([], [], [])
  else if d.lambdifyOk = false then .ok ([], [], [])
  else if conf.batch_size = 0 then .error .zeroDivisionError
  else
    let n_batches := d.nRows / conf.batch_size
    if n_batches = 0 then .error .valueError
    else
      match adamEpochs conf task d n_batches conf.epochs
          ⟨program.constants,
            List.replicate program.constants.length 0,
            List.replicate program.constants.length 0, 1, 0, 0, [], []⟩ with
      | .error e => .error e
      | .ok st => .ok (st.cs, st.loss, st.log)

/-- The two-target dataset bundle of `ADAM2FOLD`: two target columns and
two weight columns per batch, plus the per-draw mixing coefficients
`lambdas k` (the `np.random.uniform(0.0, 1.0, (1, samples))` draw of line
464, one list of samples per batch visit `k`). -/
structure Opt2Data where
  nRows : ℕ
  y1b : ℕ → List ℝ
  y2b : ℕ → List ℝ
  w1b : ℕ → List ℝ
  w2b : ℕ → List ℝ
  predf : ℕ → List ℝ → List ℝ
  gradf : ℕ → List ℝ → List (List ℝ)
  lambdifyOk : Bool
  noise : ℝ → List ℝ
  lambdas : ℕ → List ℝ

/-- Python semantics of applying call syntax to a NumPy array, as the
source does in `w1_batch[i](y_pred - y1_batch[i])` (optimization.py lines
478–479): an ndarray is not callable, so this raises `TypeError`
unconditionally. -/
def ndarrayCall (arr : List ℝ) (arg : List ℝ) : Except PyError (List ℝ) :=
  .error .typeError

/-- Mean of the broadcast `(rows × samples)` matrix
`lam*a + (1-lam)*b`: the flat `np.nanmean` equals the mean over the sampled
coefficients of the per-coefficient row means. -/
noncomputable def blendMean (lam a b : List ℝ) : ℝ :=
  rmean (lam.map (fun l =>
    rmean (List.zipWith (fun ai bi => l * ai + (1 - l) * bi) a b)))

/-- The task dispatch of `ADAM2FOLD` (lines 474–481): only
`regression:wmse` is handled.  The average loss (line 475) is the blended
weighted squared error; the average gradient (lines 477–481) applies call
syntax to the weight arrays and therefore raises `TypeError` as soon as an
entry of `num_grad` is processed.  Any other task leaves `av_loss`
unassigned, so the following `np.isnan(av_loss)` raises
`UnboundLocalError`. -/
noncomputable def adam2foldLossGrad (task : String)
    (lam y1 y2 w1 w2 ypred : List ℝ) (grads : List (List ℝ)) :
    Except PyError (ℝ × List ℝ) :=
  if task = "regression:wmse" then
    let avLoss := blendMean lam
      (List.zipWith3 (fun wi pi yi => wi * (pi - yi) ^ 2) w1 ypred y1)
      (List.zipWith3 (fun wi pi yi => wi * (pi - yi) ^ 2) w2 ypred y2)
    match grads.mapM (fun g => do
        let t1 ← ndarrayCall w1 (List.zipWith (fun pi yi => pi - yi) ypred y1)
        let t2 ← ndarrayCall w2 (List.zipWith (fun pi yi => pi - yi) ypred y2)
        pure (nanmean (lam.map (fun l => nanmean
          (List.zipWith3 (fun a b gi => 2 * (l * a + (1 - l) * b) * gi)
            t1 t2 g))))) with
    | .error e => .error e
    | .ok gs => .ok (avLoss, gs)
  else
    .error .unboundLocalError

/-- The `ADAM2FOLD` update (line 500): the adaptive step without the
elastic-net regularization terms; returns the new `(m, v, constants)`. -/
noncomputable def adam2foldUpdate (conf : OptConfig) (t : ℕ) (m v cs g : List ℝ) :
    List ℝ × List ℝ × List ℝ :=
  let m' := List.zipWith (fun mi gi => conf.beta_1 * mi + (1 - conf.beta_1) * gi) m g
  let v' := List.zipWith (fun vi gi => conf.beta_2 * vi + (1 - conf.beta_2) * gi ^ 2) v g
  let m_hat := m'.map (fun mi => mi / (1 - conf.beta_1 ^ t))
  let v_hat := v'.map (fun vi => vi / (1 - conf.beta_2 ^ t))
  (m', v',
    List.zipWith3 (fun c mh vh =>
      c - conf.learning_rate * mh / (Real.sqrt vh + conf.epsilon)) cs m_hat v_hat)

/-- Mutable loop state of `ADAM2FOLD`: the `ADAM` state plus the global
batch-visit counter `k` indexing the per-batch mixing draws. -/
structure A2FState where
  cs : List ℝ
  m : List ℝ
  v : List ℝ
  t : ℕ
  k : ℕ
  var : ℝ
  lastLoss : ℝ
  loss : List ℝ
  log : List (List ℝ)

/-- One batch of the `ADAM2FOLD` inner loop (lines 462–500). -/
noncomputable def adam2foldBatchStep (conf : OptConfig) (task : String)
    (d : Opt2Data) (i : ℕ) (st : A2FState) : Except PyError A2FState :=
  let lam := d.lambdas st.k
  let ypred := d.predf i st.cs
  let grads := d.gradf i st.cs
  match adam2foldLossGrad task lam (d.y1b i) (d.y2b i) (d.w1b i) (d.w2b i)
      ypred grads with
  | .error e => .error e
  | .ok (avLoss, avGrad) =>
    let vc : ℝ × List ℝ :=
      if npIsNaN avLoss then (st.var + 0.2, d.noise (st.var + 0.2))
      else (st.var, st.cs)
    let avGrad' := clipGrad conf.gradient_clip avGrad
    let mvc := adam2foldUpdate conf st.t st.m st.v vc.2 avGrad'
    .ok { st with
      cs := mvc.2.2
      m := mvc.1
      v := mvc.2.1
      t := st.t + 1
      k := st.k + 1
      var := vc.1
      lastLoss := avLoss }

/-- The batch loop of `ADAM2FOLD`. -/
noncomputable def adam2foldBatches (conf : OptConfig) (task : String)
    (d : Opt2Data) : ℕ → ℕ → A2FState → Except PyError A2FState
  | _, 0, st => .ok st
  | i, kk + 1, st =>
    match adam2foldBatchStep conf task d i st with
    | .error e => .error e
    | .ok st' => adam2foldBatches conf task d (i + 1) kk st'

/-- The epoch loop of `ADAM2FOLD` (lines 461–503). -/
noncomputable def adam2foldEpochs (conf : OptConfig) (task : String)
    (d : Opt2Data) (nB : ℕ) : ℕ → A2FState → Except PyError A2FState
  | 0, st => .ok st
  | e + 1, st =>
    match adam2foldBatches conf task d 0 nB st with
    | .error err => .error err
    | .ok st' =>
      adam2foldEpochs conf task d nB e
        { st' with loss := st'.loss ++ [st'.lastLoss], log := st'.log ++ [st'.cs] }

/-- `ADAM2FOLD` (optimization.py lines 348–505): the blended two-target
adaptive optimizer. -/
noncomputable def ADAM2FOLD (program : OProgram) (d : Opt2Data)
    (conf : OptConfig) (task : String) :
    Except PyError (List ℝ × List ℝ × List (List ℝ)) :=
  if program.is_valid = false then .ok ([], [], [])
  else if program.constants.length = 0 then .ok ([], [], [])
  else if d.lambdifyOk = false then .ok ([], [], [])
  else if conf.batch_size = 0 then .error .zeroDivisionError
  else
    let n_batches := d.nRows / conf.batch_size
    if n_batches = 0 then .error .valueError
    else
      match adam2foldEpochs conf task d n_batches conf.epochs
          ⟨program.constants,
            List.replicate program.constants.length 0,
            List.replicate program.constants.length 0, 1, 0, 0, 0, [], []⟩ with
      | .error e => .error e
      | .ok st => .ok (st.cs, st.loss, st.log)

/-! ## Claim C2 -/

/-- C2: each optimizer (`SGD`, `ADAM`, `ADAM2FOLD`) returns the empty
results `([], [], [])` as soon as the program is invalid or has zero free
constants — a normal return, not an exception — and the result is
independent of the dataset: the early exits (lines 59–67, 224–231,
396–404) fire before the data is read, before the gradient is built and
before any state is touched. -/
theorem claim_C2_early_exit (program : OProgram) (conf : OptConfig)
    (task : String) (d d' : OptData) (e2 e2' : Opt2Data)
    (h : program.is_valid = false ∨ program.constants.length = 0) :
    SGD program d conf task = .ok ([], [], []) ∧
      SGD program d conf task = SGD program d' conf task ∧
      ADAM program d conf task = .ok ([], [], []) ∧
      ADAM program d conf task = ADAM program d' conf task ∧
      ADAM2FOLD program e2 conf task = .ok ([], [], []) ∧
      ADAM2FOLD program e2 conf task = ADAM2FOLD program e2' conf task := by
  rcases h with h | h
  · simp [SGD, ADAM, ADAM2FOLD, h]
  · cases hv : program.is_valid <;> simp [SGD, ADAM, ADAM2FOLD, h, hv]

/-- An invalid program (as flagged by the external validity check). -/
def invalidProgW : OProgram := ⟨false, ["x"], [1]⟩

/-- A one-row dataset bundle for the single-target optimizers. -/
noncomputable def optDataW : OptData :=
  ⟨1, fun _ => [1], fun _ => [1], fun _ _ => [1], fun _ _ => [[1]], true,
    fun _ => [0]⟩

/-- A one-row dataset bundle for the two-target optimizer. -/
noncomputable def opt2DataW : Opt2Data :=
  ⟨1, fun _ => [1], fun _ => [0], fun _ => [1], fun _ => [1], fun _ _ => [1],
    fun _ _ => [[1]], true, fun _ => [0], fun _ => [1/2]⟩

/-- A concrete optimizer configuration: one epoch, batch size 1. -/
noncomputable def optConfW : OptConfig :=
  ⟨1/10, 1, 1, false, 9/10, 99/100, 1/100000000, 0, 0⟩

/-- Witness for C2 at a concrete invalid program and concrete datasets. -/
theorem claim_C2_witness :
    SGD invalidProgW optDataW optConfW "regression:wmse" = .ok ([], [], []) ∧
      SGD invalidProgW optDataW optConfW "regression:wmse"
        = SGD invalidProgW optDataW optConfW "regression:wmse" ∧
      ADAM invalidProgW optDataW optConfW "regression:wmse" = .ok ([], [], []) ∧
      ADAM invalidProgW optDataW optConfW "regression:wmse"
        = ADAM invalidProgW optDataW optConfW "regression:wmse" ∧
      ADAM2FOLD invalidProgW opt2DataW optConfW "regression:wmse" = .ok ([], [], []) ∧
      ADAM2FOLD invalidProgW opt2DataW optConfW "regression:wmse"
        = ADAM2FOLD invalidProgW opt2DataW optConfW "regression:wmse" :=
  claim_C2_early_exit invalidProgW optConfW "regression:wmse"
    optDataW optDataW opt2DataW opt2DataW (Or.inl rfl)

/-! ## Claim C10 -/

theorem taskLossGrad_unknown (task : String) (y w p : List ℝ)
    (g : List (List ℝ))
    (h1 : task ≠ "regression:wmse") (h2 : task ≠ "regression:wrrmse")
    (h3 : task ≠ "binary:logistic") :
    taskLossGrad task y w p g = .error .unboundLocalError := by
  simp [taskLossGrad, h1, h2, h3]

theorem adam2foldLossGrad_unknown (task : String)
    (lam y1 y2 w1 w2 p : List ℝ) (g : List (List ℝ))
    (h : task ≠ "regression:wmse") :
    adam2foldLossGrad task lam y1 y2 w1 w2 p g = .error .unboundLocalError := by
  simp [adam2foldLossGrad, h]

/-- C10: for a task identifier outside
`{regression:wmse, regression:wrrmse, binary:logistic}`, `SGD` and `ADAM`
never assign `av_loss`/`av_grad` in the batch loop and raise
`UnboundLocalError` on the first batch instead of returning a result;
`ADAM2FOLD` does the same for every task other than `regression:wmse`
(given a valid program with at least one constant, at least one batch and
at least one epoch). -/
theorem claim_C10_unknown_task (program : OProgram) (conf : OptConfig)
    (d : OptData) (e2 : Opt2Data) (task task2 : String)
    (hvalid : program.is_valid = true)
    (hconst : program.constants.length ≠ 0)
    (hlam : d.lambdifyOk = true) (hlam2 : e2.lambdifyOk = true)
    (hbs : conf.batch_size ≠ 0)
    (hnb : d.nRows / conf.batch_size ≠ 0)
    (hnb2 : e2.nRows / conf.batch_size ≠ 0)
    (hep : conf.epochs ≠ 0)
    (h1 : task ≠ "regression:wmse") (h2 : task ≠ "regression:wrrmse")
    (h3 : task ≠ "binary:logistic")
    (h4 : task2 ≠ "regression:wmse") :
    SGD program d conf task = .error .unboundLocalError ∧
      ADAM program d conf task = .error .unboundLocalError ∧
      ADAM2FOLD program e2 conf task2 = .error .unboundLocalError := by
  obtain ⟨e, he⟩ := Nat.exists_eq_succ_of_ne_zero hep
  obtain ⟨k, hk⟩ := Nat.exists_eq_succ_of_ne_zero hnb
  obtain ⟨k2, hk2⟩ := Nat.exists_eq_succ_of_ne_zero hnb2
  refine ⟨?_, ?_, ?_⟩
  · have hstep : ∀ i st, sgdBatchStep conf task d i st = .error .unboundLocalError := by
      intro i st
      have h := taskLossGrad_unknown task (d.yb i) (d.wb i) (d.predf i st.cs)
        (d.gradf i st.cs) h1 h2 h3
      simp [sgdBatchStep, h]
    simp [SGD, sgdEpochs, sgdBatches, hvalid, hconst, hlam, hbs, hk, he, hstep]
  · have hstep : ∀ i st, adamBatchStep conf task d i st = .error .unboundLocalError := by
      intro i st
      have h := taskLossGrad_unknown task (d.yb i) (d.wb i) (d.predf i st.cs)
        (d.gradf i st.cs) h1 h2 h3
      simp [adamBatchStep, h]
    simp [ADAM, adamEpochs, adamBatches, hvalid, hconst, hlam, hbs, hk, he, hstep]
  · have hstep : ∀ i st, adam2foldBatchStep conf task2 e2 i st = .error .unboundLocalError := by
      intro i st
      have h := adam2foldLossGrad_unknown task2 (e2.lambdas st.k) (e2.y1b i)
        (e2.y2b i) (e2.w1b i) (e2.w2b i) (e2.predf i st.cs) (e2.gradf i st.cs) h4
      simp [adam2foldBatchStep, h]
    simp [ADAM2FOLD, adam2foldEpochs, adam2foldBatches, hvalid, hconst, hlam2,
      hbs, hk2, he, hstep]

/-- A valid one-constant program. -/
def validProgW : OProgram := ⟨true, ["x"], [1]⟩

/-- Witness for C10 at the unknown task string "foo". -/
theorem claim_C10_witness :
    SGD validProgW optDataW optConfW "foo" = .error .unboundLocalError ∧
      ADAM validProgW optDataW optConfW "foo" = .error .unboundLocalError ∧
      ADAM2FOLD validProgW opt2DataW optConfW "foo" = .error .unboundLocalError :=
  claim_C10_unknown_task validProgW optConfW optDataW opt2DataW "foo" "foo"
    rfl (by decide) rfl rfl (by decide) (by decide) (by decide) (by decide)
    (by decide) (by decide) (by decide) (by decide)

/-! ## Claim C3 -/

/-- A valid one-constant program for the `ADAM2FOLD` run. -/
def c3Prog : OProgram := ⟨true, ["x"], [1]⟩

/-- A one-row two-target dataset: targets 1 and 0, unit weights,
prediction 2, and a single nonzero analytic gradient entry. -/
noncomputable def c3Data : Opt2Data :=
  ⟨1, fun _ => [1], fun _ => [0], fun _ => [1], fun _ => [1], fun _ _ => [2],
    fun _ _ => [[1]], true, fun _ => [0], fun _ => [1/2]⟩

/-- C3: evaluating `ADAM2FOLD` under task `regression:wmse` at a concrete
valid one-constant program with one batch and one epoch raises `TypeError`
on the very first batch: the gradient formula of optimization.py lines
477–481 applies call syntax to the weight arrays
(`w1_batch[i](y_pred - y1_batch[i])`), and a NumPy array is not callable.
The blended convex-combination loss of line 475 is computed, but the update
step never completes, so the optimizer raises instead of performing the
blended update the claim (and the spec's stated intent) describes. -/
theorem claim_C3_gradient_typeerror :
    ADAM2FOLD c3Prog c3Data optConfW "regression:wmse" = .error .typeError := rfl

/-! ## Claim C8 -/

/-- C8 (amended): with `beta_1 = beta_2 = 0` (and any step counter `t ≥ 1`
and any moment accumulators), the per-batch ADAM constants update
degenerates to the plain SGD update applied to the componentwise
*normalized* gradient `g / (|g| + ε)` — a sign-like step, not the plain
gradient step: `m_hat = g`, `v_hat = g²`, so the step divides each gradient
component by `|g| + ε`.  It coincides with the plain SGD update on `g`
itself only where that normalization is trivial. -/
theorem claim_C8_beta_zero (conf : OptConfig) (t : ℕ) (m v cs g : List ℝ)
    (hb1 : conf.beta_1 = 0) (hb2 : conf.beta_2 = 0) (ht : 1 ≤ t)
    (hm : m.length = g.length) (hv : v.length = g.length)
    (hc : cs.length = g.length) :
    (adamUpdate conf t m v cs g).2.2 =
      sgdUpdate conf cs (g.map (fun gi => gi / (|gi| + conf.epsilon))) := by
  induction g generalizing m v cs with
  | nil =>
    have hm0 : m = [] := List.eq_nil_of_length_eq_zero hm
    have hv0 : v = [] := List.eq_nil_of_length_eq_zero hv
    have hc0 : cs = [] := List.eq_nil_of_length_eq_zero hc
    subst hm0 hv0 hc0
    simp [adamUpdate, sgdUpdate]
  | cons g0 gs ih =>
    cases m with
    | nil => simp at hm
    | cons m0 ms =>
      cases v with
      | nil => simp at hv
      | cons v0 vs =>
        cases cs with
        | nil => simp at hc
        | cons c0 css =>
          have hpow : (0:ℝ) ^ t = 0 := zero_pow (by omega)
          have hms : ms.length = gs.length := by simpa using hm
          have hvs : vs.length = gs.length := by simpa using hv
          have hcss : css.length = gs.length := by simpa using hc
          have htail := ih ms vs css hms hvs hcss
          simp only [adamUpdate, sgdUpdate, List.zipWith_cons_cons,
            List.map_cons, List.zipWith3, List.cons.injEq] at htail ⊢
          constructor
          · rw [hb1, hb2, hpow]
            have hsq : (0 * v0 + (1 - 0) * g0 ^ 2) / (1 - 0) = g0 ^ 2 := by ring
            rw [hsq, Real.sqrt_sq_eq_abs]
            ring
          · rw [hb1, hb2] at htail ⊢
            exact htail

/-- ADAM configuration with `beta_1 = beta_2 = 0`: learning rate 1,
`epsilon = 1`, no regularization, no clipping. -/
noncomputable def c8Conf : OptConfig := ⟨1, 1, 1, false, 0, 0, 1, 0, 0⟩

/-- C8 counterexample: at constants `[0]`, gradient `[2]`, learning rate 1,
`epsilon = 1` and `beta_1 = beta_2 = 0`, the ADAM per-batch update moves to
`-(2/3)` (the normalized step `lr·g/(|g|+ε) = 2/3`) while the plain SGD
update moves to `-2` (the step `lr·g = 2`): the two updates differ by
`4/3`, far beyond any numeric tolerance at this unit scale, so the claim
that the β=0 ADAM update equals the plain gradient-descent update is
false. -/
theorem claim_C8_counterexample :
    (adamUpdate c8Conf 1 [0] [0] [0] [2]).2.2 = [-(2/3)] ∧
      sgdUpdate c8Conf [0] [2] = [-2] ∧
      (adamUpdate c8Conf 1 [0] [0] [0] [2]).2.2 ≠ sgdUpdate c8Conf [0] [2] := by
  have h4 : Real.sqrt 4 = 2 := by
    rw [show (4:ℝ) = 2 ^ 2 by norm_num]
    exact Real.sqrt_sq (by norm_num)
  have e1 : (adamUpdate c8Conf 1 [0] [0] [0] [2]).2.2 = [-(2/3)] := by
    simp [adamUpdate, c8Conf, npSign, List.zipWith3, h4]
    norm_num
  have e2 : sgdUpdate c8Conf [0] [2] = [-2] := by
    simp [sgdUpdate, c8Conf, npSign]
  refine ⟨e1, e2, ?_⟩
  rw [e1, e2]
  intro hcon
  injection hcon with hhead _
  norm_num at hhead

/-- Witness for C8 (amended) at the same concrete input. -/
theorem claim_C8_witness :
    (adamUpdate c8Conf 1 [0] [0] [0] [2]).2.2 =
      sgdUpdate c8Conf [0] ([2].map (fun gi => gi / (|gi| + c8Conf.epsilon))) :=
  claim_C8_beta_zero c8Conf 1 [0] [0] [0] [2] rfl rfl (by decide) rfl rfl rfl
